import Mathlib

/-!
Verification of the escalation-and-learning engine of the voicetest backend.

The definitions below are a shallow embedding of the Python sources under
`backend/app`: models `help_request.py`, `knowledge_base.py`, `call_record.py`,
the service `services/ai_agent.py`, and the event bridge
`integrations/livekit_sip.py`.  Timestamps are Unix seconds as `Int` (Python
ints), statuses are the literal strings the code uses, the DynamoDB tables are
modelled as association lists in creation order (put-by-key semantics), and
effects (fresh UUIDs, clock reads) are passed explicitly as arguments.
-/

namespace VoiceAgent

/-- Python `s.lower()` as a character list (the inputs at hand are ASCII, on
which `Char.toLower` agrees with Python's lowercasing). -/
def lowerChars (s : String) : List Char := s.toList.map Char.toLower

/-- Python `needle in hay` (contiguous substring containment). -/
def listContains : List Char → List Char → Bool
  | [], needle => needle.isEmpty
  | h :: t, needle => needle.isPrefixOf (h :: t) || listContains t needle

/-- Python `s.replace("+", "")`: since the pattern is the single character
`+` and the replacement is empty, this is exactly dropping every `+`. -/
def stripPlus (s : String) : String :=
  String.mk (s.toList.filter (fun c => c != '+'))

/-- One transcript line, as built by `CallRecord.add_transcript_entry`. -/
structure TranscriptEntry where
  timestamp : Int
  speaker : String
  text : String
deriving Repr, DecidableEq

/-- `CallRecord` (models/call_record.py): one phone session. -/
structure CallRecord where
  call_id : String
  customer_id : String
  customer_phone : String
  timestamp : Int
  duration : Option Int
  transcript : List TranscriptEntry
  status : String
  direction : String
deriving Repr, DecidableEq

/-- `CallRecord.add_transcript_entry`: appends one entry to the transcript. -/
def CallRecord.add_transcript_entry (c : CallRecord) (now : Int)
    (speaker text : String) : CallRecord :=
  { c with transcript := c.transcript ++ [⟨now, speaker, text⟩] }

/-- `CallRecord.complete_call`: sets status to "completed" and the duration,
unconditionally overwriting previous values. -/
def CallRecord.complete_call (c : CallRecord) (duration : Int) : CallRecord :=
  { c with status := "completed", duration := some duration }

/-- `HelpRequest` (models/help_request.py): one escalated question. -/
structure HelpRequest where
  request_id : String
  question : String
  call_id : String
  customer_id : String
  customer_phone : String
  status : String
  timestamp : Int
  answer : Option String
  resolved_at : Option Int
  timeout_seconds : Int
deriving Repr, DecidableEq

/-- `HelpRequest.is_timed_out`: pending and strictly older than the timeout.
The Python reads `int(time.time())`; here the clock is the `now` argument. -/
def HelpRequest.is_timed_out (r : HelpRequest) (now : Int) : Bool :=
  r.status == "pending" && decide (now - r.timestamp > r.timeout_seconds)

/-- `HelpRequest.mark_unresolved`: the sweeper's transition to "unresolved". -/
def HelpRequest.mark_unresolved (r : HelpRequest) : HelpRequest :=
  { r with status := "unresolved" }

/-- `KnowledgeBase` (models/knowledge_base.py): one learned question/answer. -/
structure KnowledgeBase where
  question_id : String
  question : String
  answer : String
  created_at : Int
  source_request_id : Option String
  confidence : ℚ
deriving Repr, DecidableEq

/-- Case-insensitive bidirectional containment used by
`AIAgent.find_similar_question`: the Python test is
`question_lower in entry_question_lower or entry_question_lower in
question_lower`. -/
def ciMatch (query stored : String) : Bool :=
  listContains (lowerChars stored) (lowerChars query)
    || listContains (lowerChars query) (lowerChars stored)

/-- `AIAgent.find_similar_question`: scans the knowledge entries in store order
and returns the first case-insensitive bidirectional substring match.  The
store list is kept in creation order (earliest first), the determinism choice
the specification makes for DynamoDB scan order. -/
def find_similar_question : List KnowledgeBase → String → Option KnowledgeBase
  | [], _ => none
  | e :: rest, question =>
    if ciMatch question e.question then some e
    else find_similar_question rest question

/-- `settings.SALON_INFO["hours"]`. -/
def SALON_HOURS : String := "Monday-Friday: 9am-7pm, Saturday: 10am-5pm, Sunday: Closed"

/-- `settings.SALON_INFO["address"]`. -/
def SALON_ADDRESS : String := "123 Main Street, Downtown"

/-- `settings.SALON_INFO["services"]`. -/
def SALON_SERVICES : List String :=
  ["Haircut", "Coloring", "Styling", "Manicure", "Pedicure"]

/-- `AIAgent.check_simple_questions`: the fixed keyword rules for hours,
location and services; `none` for everything else (which then escalates). -/
def check_simple_questions (question : String) : Option String :=
  let ql := lowerChars question
  if (listContains ql "what".toList && listContains ql "hour".toList)
      || (listContains ql "when".toList
          && (listContains ql "open".toList || listContains ql "close".toList)) then
    some ("Our hours are " ++ SALON_HOURS)
  else if (listContains ql "where".toList
        && (listContains ql "located".toList || listContains ql "location".toList))
      || (listContains ql "what".toList && listContains ql "address".toList) then
    some ("We're located at " ++ SALON_ADDRESS)
  else if listContains ql "what services".toList
      || listContains ql "services do you offer".toList then
    some ("We offer " ++ String.intercalate ", " SALON_SERVICES)
  else
    none

/-- Result shape of `AIAgent.answer_question`. -/
structure AnswerResult where
  answer : String
  needs_help : Bool
deriving Repr, DecidableEq

/-- The fixed escalation phrase of `AIAgent.answer_question`. -/
def ESCALATION_PHRASE : String := "Let me check with my supervisor and get back to you."

/-- `AIAgent.answer_question`: knowledge-base match first, then the fixed
simple-question rules, otherwise the escalation phrase with needs_help. -/
def answer_question (knowledge : List KnowledgeBase) (question : String) : AnswerResult :=
  match find_similar_question knowledge question with
  | some entry => { answer := entry.answer, needs_help := false }
  | none =>
    match check_simple_questions question with
    | some simple => { answer := simple, needs_help := false }
    | none => { answer := ESCALATION_PHRASE, needs_help := true }

/-- The splitter behind Python `str.split()` with no argument: cut at runs of
whitespace, dropping empty pieces; `cur` is the (reversed) word in
progress. -/
def wordsAux : List Char → List Char → List (List Char)
  | cur, [] => if cur.isEmpty then [] else [cur.reverse]
  | cur, c :: rest =>
    if c.isWhitespace then
      (if cur.isEmpty then wordsAux [] rest else cur.reverse :: wordsAux [] rest)
    else wordsAux (c :: cur) rest

/-- Python `set(s.lower().split())`: the set of whitespace-separated words of
the lowercased text. -/
def wordSet (s : String) : Finset (List Char) :=
  (wordsAux [] (lowerChars s)).toFinset

/-- `KnowledgeBase.find_similar`: keeps the entries whose word-overlap score
`len(Q ∩ E) / len(Q)` reaches the threshold, where `Q` is the query's word set
and `E` the entry's; a query with no words matches nothing. -/
def find_similar (entries : List KnowledgeBase) (question : String)
    (threshold : ℚ) : List KnowledgeBase :=
  entries.filter (fun e =>
    decide (0 < (wordSet question).card ∧
      threshold ≤ ((wordSet question ∩ wordSet e.question).card : ℚ) /
        ((wordSet question).card : ℚ)))

/-- Modelled from the spec's words for comparison with `find_similar` (claim
about token-set Jaccard): intersection size over union size of the two
lowercased word sets. -/
def jaccardSim (query stored : String) : ℚ :=
  ((wordSet query ∩ wordSet stored).card : ℚ) /
    ((wordSet query ∪ wordSet stored).card : ℚ)

/-- DynamoDB `put_item` on an association list kept in creation order:
overwrite the record carrying the same key, else append. -/
def putByKey {α : Type} (key : α → String) (xs : List α) (x : α) : List α :=
  if xs.any (fun y => key y == key x) then
    xs.map (fun y => if key y == key x then x else y)
  else
    xs ++ [x]

/-- The persistent state the AIAgent operations act on: the three DynamoDB
tables, each as a list in creation order. -/
structure AgentState where
  calls : List CallRecord
  help_requests : List HelpRequest
  knowledge : List KnowledgeBase
deriving Repr, DecidableEq

/-- `AIAgent.create_help_request`: builds a pending request (constructor
defaults status "pending", timestamp now) and saves it; the supervisor
notification is fire-and-forget and outside the state. -/
def create_help_request (st : AgentState) (fresh_id question call_id
    customer_id customer_phone : String) (now : Int) (timeout : Int) :
    HelpRequest × AgentState :=
  let hr : HelpRequest :=
    { request_id := fresh_id, question := question, call_id := call_id,
      customer_id := customer_id, customer_phone := customer_phone,
      status := "pending", timestamp := now, answer := none,
      resolved_at := none, timeout_seconds := timeout }
  (hr, { st with help_requests := putByKey HelpRequest.request_id st.help_requests hr })

/-- `AIAgent.resolve_help_request`: looks the request up by id (None when
unknown), sets status "resolved" and the answer — and nothing else: the code
never assigns `resolved_at` — saves it, and appends a fresh knowledge entry
with the request's question, the answer, confidence 1.0 and the request id as
source.  `fresh_qid` and `entry_now` stand for the fresh UUID and the clock
read in the KnowledgeBase constructor. -/
def resolve_help_request (st : AgentState) (request_id answer : String)
    (fresh_qid : String) (entry_now : Int) : Option (HelpRequest × AgentState) :=
  match st.help_requests.find? (fun r => r.request_id == request_id) with
  | none => none
  | some hr =>
    let hr2 := { hr with status := "resolved", answer := some answer }
    let entry : KnowledgeBase :=
      { question_id := fresh_qid, question := hr2.question, answer := answer,
        created_at := entry_now, source_request_id := some request_id,
        confidence := 1 }
    some (hr2,
      { st with
          help_requests := putByKey HelpRequest.request_id st.help_requests hr2,
          knowledge := putByKey KnowledgeBase.question_id st.knowledge entry })

/-- `AIAgent.process_call_question`: None when the call id is unknown;
otherwise appends the customer utterance and the computed answer to the
transcript, and when the answer needs help creates one pending help request
carrying the question. -/
def process_call_question (st : AgentState) (call_id question : String)
    (now : Int) (fresh_req_id : String) (timeout : Int) :
    Option (AnswerResult × AgentState) :=
  match st.calls.find? (fun c => c.call_id == call_id) with
  | none => none
  | some call =>
    let call1 := call.add_transcript_entry now "customer" question
    let result := answer_question st.knowledge question
    let call2 := call1.add_transcript_entry now "ai" result.answer
    let st1 := { st with calls := putByKey CallRecord.call_id st.calls call2 }
    if result.needs_help then
      let created := create_help_request st1 fresh_req_id question call_id
        call.customer_id call.customer_phone now timeout
      some (result, created.2)
    else
      some (result, st1)

/-- One doubling step of `_websocket_listener`'s retry delay:
`retry_delay = min(retry_delay * 2, max_retry_delay)` with the cap at 60. -/
def nextRetryDelay (d : Nat) : Nat := min (d * 2) 60

/-- The sleep durations of `_websocket_listener`, one per connection attempt.
`true` is an attempt that connects (the code then sets `retry_delay = 1`; the
connection later drops, the loop sleeps that 1 and doubles it); `false` is an
attempt that fails (the loop sleeps the current delay and doubles it).  The
listener starts with `retry_delay = 1`. -/
def backoffSleeps : Nat → List Bool → List Nat
  | _, [] => []
  | d, connected :: rest =>
    if connected then 1 :: backoffSleeps (nextRetryDelay 1) rest
    else d :: backoffSleeps (nextRetryDelay d) rest

/-- Parse outcome of a participant's session metadata string.  `fields`
carries the `type`, `callId` and `from` keys of a well-formed JSON object
(each possibly absent); `malformed` is a string `json.loads` rejects. -/
inductive ParticipantMeta where
  | malformed : ParticipantMeta
  | fields : Option String → Option String → Option String → ParticipantMeta
deriving Repr, DecidableEq

/-- A participant of a `participant_joined` event; `metadata = none` models an
absent metadata key, which the handler defaults to the empty JSON object. -/
structure Participant where
  identity : String
  metadata : Option ParticipantMeta
deriving Repr, DecidableEq

/-- In-memory active-call tracking entry (`self.active_calls` values). -/
structure ActiveCall where
  room_name : Option String
  participant_id : String
  phone_number : String
  start_time : Int
  status : String
deriving Repr, DecidableEq

/-- A `participant_joined` event as consumed by the handler. -/
structure JoinedEvent where
  room : Option String
  participant : Participant
deriving Repr, DecidableEq

/-- `LiveKitSipIntegration._handle_participant_joined`: returns the updated
active-call table and the `on_call_received` invocation
`(call_id, customer_id, phone_number)` when one happens.  Malformed metadata
hits the `json.JSONDecodeError` branch: logged, no state change, no callback.
Absent metadata defaults to the empty object, whose `type` is not "sip", so
the event is ignored.  For a sip-tagged participant a missing `callId` falls
back to `"call_" + identity` and a missing `from` to `"unknown"`; the
customer id strips `+` from the phone number. -/
def handle_participant_joined (activeCalls : List (String × ActiveCall))
    (ev : JoinedEvent) (now : Int) :
    List (String × ActiveCall) × Option (String × String × String) :=
  let parsed : Option (Option String × Option String × Option String) :=
    match ev.participant.metadata with
    | none => some (none, none, none)
    | some ParticipantMeta.malformed => none
    | some (ParticipantMeta.fields t c f) => some (t, c, f)
  match parsed with
  | none => (activeCalls, none)
  | some (t, c, f) =>
    if t == some "sip" then
      let call_id := c.getD ("call_" ++ ev.participant.identity)
      let phone_number := f.getD "unknown"
      let updated :=
        if activeCalls.any (fun p => p.1 == call_id) then
          activeCalls.map (fun p =>
            if p.1 == call_id then
              (p.1, { p.2 with participant_id := ev.participant.identity,
                               phone_number := phone_number, status := "active" })
            else p)
        else
          activeCalls ++ [(call_id,
            { room_name := ev.room, participant_id := ev.participant.identity,
              phone_number := phone_number, start_time := now,
              status := "active" })]
      (updated, some (call_id, stripPlus phone_number, phone_number))
    else
      (activeCalls, none)

/-- The retry-delay value held by `_websocket_listener` after a list of
attempt outcomes has been processed. -/
def backoffState : Nat → List Bool → Nat
  | d, [] => d
  | d, connected :: rest =>
    backoffState (if connected then nextRetryDelay 1 else nextRetryDelay d) rest

/-- A pending help request created at time 1000, used as concrete input. -/
def c1_req : HelpRequest :=
  { request_id := "r1", question := "Do you offer student discounts?",
    call_id := "c1", customer_id := "15551234567",
    customer_phone := "+15551234567", status := "pending", timestamp := 1000,
    answer := none, resolved_at := none, timeout_seconds := 3600 }

/-- State holding just `c1_req`. -/
def c1_state : AgentState :=
  { calls := [], help_requests := [c1_req], knowledge := [] }

/-- A knowledge entry that predates the escalation of the C3 scenario and
matches its question with a different answer. -/
def c3_entry0 : KnowledgeBase :=
  { question_id := "k0", question := "Do you offer student discounts?",
    answer := "B", created_at := 100, source_request_id := none,
    confidence := 1 }

/-- A pending escalation asking the question `c3_entry0` already covers. -/
def c3_req : HelpRequest :=
  { request_id := "r3", question := "Do you offer student discounts?",
    call_id := "c3", customer_id := "15551234567",
    customer_phone := "+15551234567", status := "pending", timestamp := 1000,
    answer := none, resolved_at := none, timeout_seconds := 3600 }

/-- State where the cache already matches the escalated question. -/
def c3_state : AgentState :=
  { calls := [], help_requests := [c3_req], knowledge := [c3_entry0] }

/-- A pending escalation over an empty cache. -/
def c3w_req : HelpRequest :=
  { request_id := "r3w", question := "Do you offer student discounts?",
    call_id := "c3w", customer_id := "15551234567",
    customer_phone := "+15551234567", status := "pending", timestamp := 1000,
    answer := none, resolved_at := none, timeout_seconds := 3600 }

/-- State holding just `c3w_req` and no knowledge entries. -/
def c3w_state : AgentState :=
  { calls := [], help_requests := [c3w_req], knowledge := [] }

/-- The request `c3w_req` after resolution with answer "A". -/
def c3w_req2 : HelpRequest := { c3w_req with status := "resolved", answer := some "A" }

/-- The state after resolving `c3w_req` with answer "A" at time 2000. -/
def c3w_state2 : AgentState :=
  { calls := [], help_requests := [c3w_req2],
    knowledge := [{ question_id := "k1w", question := c3w_req.question,
                    answer := "A", created_at := 2000,
                    source_request_id := some "r3w", confidence := 1 }] }

/-- An in-progress call, concrete input for the escalation scenario. -/
def c4_call : CallRecord :=
  { call_id := "c4", customer_id := "15551234567",
    customer_phone := "+15551234567", timestamp := 500, duration := none,
    transcript := [], status := "in_progress", direction := "inbound" }

/-- State holding just `c4_call`, with an empty cache. -/
def c4_state : AgentState :=
  { calls := [c4_call], help_requests := [], knowledge := [] }

/-- A stored entry that does not match the query "hour". -/
def c5e1 : KnowledgeBase :=
  { question_id := "k51", question := "Where can I park?", answer := "In the back",
    created_at := 10, source_request_id := none, confidence := 1 }

/-- A stored entry the query "hour" is a substring of. -/
def c5e2 : KnowledgeBase :=
  { question_id := "k52", question := "What are your hours?", answer := "9 to 7",
    created_at := 20, source_request_id := none, confidence := 1 }

/-- An entry whose question shares both query words but has four extra words,
so the overlap score is 1 while the Jaccard similarity is 1/3. -/
def c6_entry : KnowledgeBase :=
  { question_id := "k6", question := "a b c d e f", answer := "yes",
    created_at := 0, source_request_id := none, confidence := 1 }

/-- A participant-joined event whose metadata string is not valid JSON. -/
def c8_mal_event : JoinedEvent :=
  { room := some "room1",
    participant := { identity := "p1", metadata := some ParticipantMeta.malformed } }

/-- A participant-joined event with no metadata key at all. -/
def c8_abs_event : JoinedEvent :=
  { room := some "room1", participant := { identity := "p2", metadata := none } }

/-- A sip-tagged event whose metadata lacks both `callId` and `from`. -/
def c8w_event : JoinedEvent :=
  { room := some "room1",
    participant :=
      { identity := "p3",
        metadata := some (ParticipantMeta.fields (some "sip") none none) } }

/-- An escalation already in the terminal "unresolved" state. -/
def c10_req : HelpRequest :=
  { request_id := "r10", question := "Do you offer student discounts?",
    call_id := "c10", customer_id := "15551234567",
    customer_phone := "+15551234567", status := "unresolved", timestamp := 1000,
    answer := none, resolved_at := none, timeout_seconds := 3600 }

/-- State holding just `c10_req` and no knowledge entries. -/
def c10_state : AgentState :=
  { calls := [], help_requests := [c10_req], knowledge := [] }

/-- C2: `is_timed_out` returns true iff the request is still pending and
strictly more than `timeout_seconds` have elapsed since creation; after the
sweeper's `mark_unresolved` transition it returns false. -/
theorem c2_is_timed_out_iff (r : HelpRequest) (now : Int) :
    (r.is_timed_out now = true ↔
      (r.status = "pending" ∧ now - r.timestamp > r.timeout_seconds))
    ∧ r.mark_unresolved.is_timed_out now = false := by
  constructor
  · simp [HelpRequest.is_timed_out]
  · simp [HelpRequest.is_timed_out, HelpRequest.mark_unresolved]

/-- C2 witness at a concrete request and clock value. -/
theorem c2_is_timed_out_iff_witness :
    ({ request_id := "r1", question := "q", call_id := "c1", customer_id := "u1",
       customer_phone := "+15551234567", status := "pending", timestamp := 1000,
       answer := none, resolved_at := none, timeout_seconds := 3600 } :
        HelpRequest).is_timed_out 4700 = true :=
  (c2_is_timed_out_iff _ 4700).1.mpr ⟨rfl, by decide⟩

/-- C9: `complete_call` is idempotent with last-write-wins semantics: a second
call fully overwrites the first, and each call leaves status "completed" with
the supplied duration. -/
theorem c9_complete_call_idempotent (c : CallRecord) (d1 d2 : Int) :
    (c.complete_call d1).complete_call d2 = c.complete_call d2
    ∧ (c.complete_call d1).status = "completed"
    ∧ (c.complete_call d1).duration = some d1 :=
  ⟨rfl, rfl, rfl⟩

/-- `listContains` decides contiguous-substring containment. -/
theorem listContains_iff (hay needle : List Char) :
    listContains hay needle = true ↔ needle <:+: hay := by
  induction hay with
  | nil => simp [listContains, List.isEmpty_iff]
  | cons h t ih =>
    simp [listContains, List.infix_cons_iff, ih, Bool.or_eq_true]

/-- Every character list contains itself. -/
theorem listContains_self (l : List Char) : listContains l l = true :=
  (listContains_iff l l).mpr (List.infix_refl l)

/-- `ciMatch` is the executable form of bidirectional lowercased substring
containment. -/
theorem ciMatch_iff (q s : String) :
    ciMatch q s = true ↔
      (lowerChars q <:+: lowerChars s ∨ lowerChars s <:+: lowerChars q) := by
  simp [ciMatch, listContains_iff, Bool.or_eq_true, or_comm]

/-- Every string matches itself under `ciMatch`. -/
theorem ciMatch_refl (q : String) : ciMatch q q = true := by
  simp [ciMatch, listContains_self]

/-- `find_similar_question` is first-match search with the `ciMatch`
predicate. -/
theorem find_similar_question_eq_find? (kb : List KnowledgeBase) (q : String) :
    find_similar_question kb q = kb.find? (fun e => ciMatch q e.question) := by
  induction kb with
  | nil => rfl
  | cons e rest ih =>
    cases hc : ciMatch q e.question <;>
      simp [find_similar_question, List.find?, hc, ih]

/-- Fresh-key `put_item` appends at the end of the store. -/
theorem putByKey_fresh {α : Type} (key : α → String) (xs : List α) (x : α)
    (h : ∀ y ∈ xs, key y ≠ key x) : putByKey key xs x = xs ++ [x] := by
  unfold putByKey
  rw [if_neg]
  intro hc
  obtain ⟨y, hy, he⟩ := List.any_eq_true.mp hc
  exact h y hy (by simpa using he)

/-- After `put_item` of a record whose key was already present, lookup by that
key returns the new record. -/
theorem find?_putByKey {α : Type} (key : α → String) (xs : List α) (x y0 : α)
    (h : xs.find? (fun y => key y == key x) = some y0) :
    (putByKey key xs x).find? (fun y => key y == key x) = some x := by
  have hmem := List.mem_of_find?_eq_some h
  have hp := List.find?_some h
  have heq0 : key y0 = key x := by simpa using hp
  have hany : xs.any (fun y => key y == key x) = true :=
    List.any_eq_true.mpr ⟨y0, hmem, hp⟩
  unfold putByKey
  rw [if_pos hany, List.find?_map]
  have hfun : ((fun y => key y == key x) ∘
      fun y => if key y == key x then x else y) = fun y => key y == key x := by
    funext y
    cases hy : key y == key x
    · rw [Function.comp_apply, if_neg (by simp [hy]), hy]
    · rw [Function.comp_apply, if_pos (by simp [hy])]
      simp
  rw [hfun, h]
  simp [heq0]

/-- A keyed in-place update keeps the keys, so key search is unaffected. -/
theorem any_fst_map {β : Type} (l : List (String × β)) (g : String × β → β)
    (k : String) :
    (l.map (fun p => if p.1 == k then (p.1, g p) else p)).any
        (fun p => p.1 == k)
      = l.any (fun p => p.1 == k) := by
  induction l with
  | nil => rfl
  | cons x t ih =>
    cases hx : x.1 == k
    · simp only [List.map_cons, List.any_cons]
      rw [if_neg (by simp [hx])]
      simp only [List.any_cons, hx, ih]
    · simp only [List.map_cons, List.any_cons]
      rw [if_pos (by simp [hx])]
      simp only [List.any_cons, hx, ih]

/-- Processing a concatenated outcome list splits the sleep trace at the
intermediate retry-delay state. -/
theorem backoffSleeps_append (d : Nat) (xs ys : List Bool) :
    backoffSleeps d (xs ++ ys) =
      backoffSleeps d xs ++ backoffSleeps (backoffState d xs) ys := by
  induction xs generalizing d with
  | nil => rfl
  | cons b rest ih => cases b <;> simp [backoffSleeps, backoffState, ih]

/-- Doubling a capped power of two keeps the capped-power-of-two shape. -/
theorem nextRetryDelay_min_pow (k : Nat) :
    nextRetryDelay (min (2 ^ k) 60) = min (2 ^ (k + 1)) 60 := by
  have h2 : 2 ^ (k + 1) = 2 ^ k * 2 := by rw [pow_succ]
  unfold nextRetryDelay
  omega

/-- A run of `n` failed attempts from delay `min (2^k) 60` sleeps the capped
doubling sequence. -/
theorem backoffSleeps_replicate_false (n : Nat) : ∀ k : Nat,
    backoffSleeps (min (2 ^ k) 60) (List.replicate n false) =
      (List.range n).map (fun i => min (2 ^ (k + i)) 60) := by
  induction n with
  | zero => intro k; rfl
  | succ n ih =>
    intro k
    rw [List.replicate_succ]
    have harg : ∀ i : Nat, k + 1 + i = k + (i + 1) := fun i => by omega
    simp [backoffSleeps, nextRetryDelay_min_pow, ih (k + 1),
      List.range_succ_eq_map, List.map_map, Function.comp_def, harg]

/-- Every sleep the listener performs stays between 1 and 60 when the entry
delay does. -/
theorem backoffSleeps_bounds (outcomes : List Bool) : ∀ (d : Nat), 1 ≤ d →
    d ≤ 60 → ∀ s ∈ backoffSleeps d outcomes, 1 ≤ s ∧ s ≤ 60 := by
  induction outcomes with
  | nil => simp [backoffSleeps]
  | cons b rest ih =>
    intro d h1 h60 s hs
    cases b <;> simp [backoffSleeps] at hs <;>
      rcases hs with rfl | hs
    · exact ⟨h1, h60⟩
    · exact ih (nextRetryDelay d) (by unfold nextRetryDelay; omega)
        (by unfold nextRetryDelay; omega) s hs
    · exact ⟨le_refl 1, by omega⟩
    · exact ih (nextRetryDelay 1) (by decide) (by decide) s hs

/-- C1: `resolve_help_request` on a pending request (created at time 1000,
resolved at time 2000) returns it with status "resolved" and the supplied
answer but with `resolved_at = none`: no code path ever assigns
`resolved_at`, contradicting the documented meaning of the field, so the
specified postcondition `resolved_at = now` (and the invariant
`resolved_at ≥ created_at` for resolved escalations) fails. -/
theorem c1_resolve_leaves_resolved_at_none :
    (resolve_help_request c1_state "r1" "Yes, 15% off with student ID" "q1"
        2000).map (fun p => (p.1.status, p.1.answer, p.1.resolved_at))
      = some ("resolved", some "Yes, 15% off with student ID", none) := rfl

/-- C3 counterexample: the cache of `c3_state` already holds `c3_entry0`,
whose question equals the escalated question but whose answer is "B".  After
`resolve_help_request(e.id, "A")` succeeds, `find_similar_question` on the
question returns that earlier entry, so the returned answer is "B", not the
claimed "A". -/
theorem c3_counterexample :
    (resolve_help_request c3_state "r3" "A" "k1" 2000).isSome = true
    ∧ ((resolve_help_request c3_state "r3" "A" "k1" 2000).bind
        (fun p => (find_similar_question p.2.knowledge c3_req.question).map
          KnowledgeBase.answer)) = some "B"
    ∧ ("B" : String) ≠ "A" := by
  refine ⟨rfl, ?_, by decide⟩
  rfl

/-- C3 (amended): after `resolve_help_request(e.id, a)` succeeds with an
entry id that is new to the store, `find_similar_question` on the
escalation's question returns some entry, and when no previously stored
entry matches the question, that entry's answer is `a`. -/
theorem c3_round_trip_amended (st : AgentState) (rid a qid : String) (t : Int)
    (r2 : HelpRequest) (st2 : AgentState)
    (hres : resolve_help_request st rid a qid t = some (r2, st2))
    (hfresh : ∀ k ∈ st.knowledge, k.question_id ≠ qid)
    (hnomatch : ∀ k ∈ st.knowledge, ciMatch r2.question k.question = false) :
    ∃ k, find_similar_question st2.knowledge r2.question = some k
      ∧ k.answer = a := by
  cases hfind : st.help_requests.find? (fun r => r.request_id == rid) with
  | none => simp [resolve_help_request, hfind] at hres
  | some hr =>
    simp only [resolve_help_request, hfind, Option.some.injEq,
      Prod.mk.injEq] at hres
    obtain ⟨hr2, hst2⟩ := hres
    have hq : r2.question = hr.question := by rw [← hr2]
    subst hst2
    rw [putByKey_fresh KnowledgeBase.question_id st.knowledge _
      (fun k hk => hfresh k hk)]
    rw [find_similar_question_eq_find?, List.find?_append]
    have h1 : st.knowledge.find? (fun e => ciMatch r2.question e.question)
        = none :=
      List.find?_eq_none.mpr (fun k hk => by simp [hnomatch k hk])
    rw [h1]
    have hpe : ciMatch r2.question hr.question = true := by
      rw [hq]; exact ciMatch_refl hr.question
    have hfind2 : (none : Option KnowledgeBase).or
        (List.find? (fun e => ciMatch r2.question e.question)
          [{ question_id := qid, question := hr.question, answer := a,
             created_at := t, source_request_id := some rid, confidence := 1 }])
        = some { question_id := qid, question := hr.question, answer := a,
                 created_at := t, source_request_id := some rid,
                 confidence := 1 } := by
      simp [List.find?, hpe]
    exact ⟨_, hfind2, rfl⟩

/-- C3 witness: the scenario over an empty cache, resolved with "A". -/
theorem c3_round_trip_amended_witness :
    ∃ k, find_similar_question c3w_state2.knowledge c3w_req2.question = some k
      ∧ k.answer = "A" :=
  c3_round_trip_amended c3w_state "r3w" "A" "k1w" 2000 c3w_req2 c3w_state2
    rfl (by simp [c3w_state]) (by simp [c3w_state])

/-- C5: `find_similar_question` returns an entry iff some stored entry
matches the query by case-insensitive substring containment in either
direction, the returned entry is such a match from the store, and the first
match in store order (creation order, earliest first) wins. -/
theorem c5_find_match (kb : List KnowledgeBase) (q : String) :
    ((find_similar_question kb q).isSome = true ↔
      ∃ e ∈ kb, (lowerChars q <:+: lowerChars e.question ∨
                 lowerChars e.question <:+: lowerChars q))
    ∧ (∀ e, find_similar_question kb q = some e → e ∈ kb ∧
        (lowerChars q <:+: lowerChars e.question ∨
         lowerChars e.question <:+: lowerChars q))
    ∧ ∀ pre e rest, kb = pre ++ e :: rest →
        (∀ x ∈ pre, ¬(lowerChars q <:+: lowerChars x.question ∨
            lowerChars x.question <:+: lowerChars q)) →
        (lowerChars q <:+: lowerChars e.question ∨
         lowerChars e.question <:+: lowerChars q) →
        find_similar_question kb q = some e := by
  refine ⟨?_, ?_, ?_⟩
  · rw [find_similar_question_eq_find?]
    simp [List.find?_isSome, ciMatch_iff]
  · intro e he
    rw [find_similar_question_eq_find?] at he
    have hp := List.find?_some he
    exact ⟨List.mem_of_find?_eq_some he, (ciMatch_iff q e.question).mp hp⟩
  · intro pre e rest hkb hpre he
    subst hkb
    rw [find_similar_question_eq_find?, List.find?_append]
    have h1 : pre.find? (fun x => ciMatch q x.question) = none :=
      List.find?_eq_none.mpr (fun x hx => by
        simp only [ciMatch_iff]
        exact hpre x hx)
    have hpe : ciMatch q e.question = true := (ciMatch_iff q e.question).mpr he
    rw [h1]
    simp [List.find?, hpe]

/-- C5 witness: "hour" skips the non-matching first entry and hits the
second. -/
theorem c5_find_match_witness :
    find_similar_question [c5e1, c5e2] "hour" = some c5e2 :=
  (c5_find_match [c5e1, c5e2] "hour").2.2 [c5e1] c5e2 [] rfl (by decide)
    (by decide)

/-- C4: for a question with no knowledge-cache match and no simple-rule
match, asked on a known call, `process_call_question` returns exactly the
escalation phrase with needs_help, and appends exactly one new help request
with status "pending" carrying the question text. -/
theorem c4_unknown_question_escalates (st : AgentState) (call : CallRecord)
    (call_id q fresh : String) (now timeout : Int)
    (hcall : st.calls.find? (fun c => c.call_id == call_id) = some call)
    (hkb : find_similar_question st.knowledge q = none)
    (hsimple : check_simple_questions q = none)
    (hfresh : ∀ r ∈ st.help_requests, r.request_id ≠ fresh) :
    ∃ st2, process_call_question st call_id q now fresh timeout =
        some ({ answer := ESCALATION_PHRASE, needs_help := true }, st2)
      ∧ st2.help_requests = st.help_requests ++
          [{ request_id := fresh, question := q, call_id := call_id,
             customer_id := call.customer_id,
             customer_phone := call.customer_phone, status := "pending",
             timestamp := now, answer := none, resolved_at := none,
             timeout_seconds := timeout }] := by
  have hans : answer_question st.knowledge q =
      { answer := ESCALATION_PHRASE, needs_help := true } := by
    simp [answer_question, hkb, hsimple]
  have hput : putByKey HelpRequest.request_id st.help_requests
      { request_id := fresh, question := q, call_id := call_id,
        customer_id := call.customer_id,
        customer_phone := call.customer_phone, status := "pending",
        timestamp := now, answer := none, resolved_at := none,
        timeout_seconds := timeout } = st.help_requests ++
          [{ request_id := fresh, question := q, call_id := call_id,
             customer_id := call.customer_id,
             customer_phone := call.customer_phone, status := "pending",
             timestamp := now, answer := none, resolved_at := none,
             timeout_seconds := timeout }] :=
    putByKey_fresh _ _ _ (fun r hr => hfresh r hr)
  refine ⟨{ st with
      calls := putByKey CallRecord.call_id st.calls
        ((call.add_transcript_entry now "customer" q).add_transcript_entry
          now "ai" ESCALATION_PHRASE),
      help_requests := st.help_requests ++
        [{ request_id := fresh, question := q, call_id := call_id,
           customer_id := call.customer_id,
           customer_phone := call.customer_phone, status := "pending",
           timestamp := now, answer := none, resolved_at := none,
           timeout_seconds := timeout }] }, ?_, rfl⟩
  simp [process_call_question, hcall, hans, create_help_request, hput]

/-- C4 witness: "Do you offer student discounts?" over an empty cache on the
call `c4_call`. -/
theorem c4_unknown_question_escalates_witness :
    ∃ st2, process_call_question c4_state "c4"
        "Do you offer student discounts?" 900 "r4" 3600 =
        some ({ answer := ESCALATION_PHRASE, needs_help := true }, st2)
      ∧ st2.help_requests = c4_state.help_requests ++
          [{ request_id := "r4", question := "Do you offer student discounts?",
             call_id := "c4", customer_id := c4_call.customer_id,
             customer_phone := c4_call.customer_phone, status := "pending",
             timestamp := 900, answer := none, resolved_at := none,
             timeout_seconds := 3600 }] :=
  c4_unknown_question_escalates c4_state c4_call "c4"
    "Do you offer student discounts?" "r4" 900 3600 rfl rfl (by decide)
    (by simp [c4_state])

/-- C6 counterexample: for the query "a b" against the stored question
"a b c d e f" at threshold 7/10, the code's score is `|Q ∩ E| / |Q| = 1` so
the entry is returned, yet the token-set Jaccard similarity is
`2/6 = 1/3 < 7/10`, so the claimed Jaccard-based characterization fails. -/
theorem c6_counterexample :
    find_similar [c6_entry] "a b" (7/10) = [c6_entry]
    ∧ jaccardSim "a b" c6_entry.question < 7/10 := by
  have hI : (wordSet "a b" ∩ wordSet c6_entry.question).card = 2 := by decide
  have hQ : (wordSet "a b").card = 2 := by decide
  have hU : (wordSet "a b" ∪ wordSet c6_entry.question).card = 6 := by decide
  constructor
  · have hp : (0 < (wordSet "a b").card ∧ (7/10 : ℚ) ≤
        ((wordSet "a b" ∩ wordSet c6_entry.question).card : ℚ) /
          ((wordSet "a b").card : ℚ)) := by
      rw [hI, hQ]; norm_num
    simp [find_similar, hp]
  · unfold jaccardSim
    rw [hI, hU]
    norm_num

/-- C6 (amended): `find_similar` returns exactly (a sublist of the store
containing) those entries whose overlap score — intersection size of the two
lowercased word sets divided by the size of the query's word set — reaches
the threshold, the query's word set being nonempty; it is not Jaccard: the
union size plays no role. -/
theorem c6_find_similar_amended (entries : List KnowledgeBase) (q : String)
    (t : ℚ) :
    (find_similar entries q t).Sublist entries
    ∧ ∀ e, (e ∈ find_similar entries q t ↔
        e ∈ entries ∧ 0 < (wordSet q).card ∧
          t ≤ ((wordSet q ∩ wordSet e.question).card : ℚ) /
            ((wordSet q).card : ℚ)) := by
  refine ⟨List.filter_sublist _, fun e => ?_⟩
  simp [find_similar, List.mem_filter, and_assoc]

/-- C6 witness: the entry of the counterexample is kept by `find_similar`. -/
theorem c6_find_similar_amended_witness :
    c6_entry ∈ find_similar [c6_entry] "a b" (7/10) := by
  refine ((c6_find_similar_amended [c6_entry] "a b" (7/10)).2 c6_entry).mpr
    ⟨by simp, by decide, ?_⟩
  rw [(by decide : (wordSet "a b" ∩ wordSet c6_entry.question).card = 2),
      (by decide : (wordSet "a b").card = 2)]
  norm_num

/-- C7: the listener's reconnect policy — a fresh run of failures sleeps
1, 2, 4, …, capped at 60; after any successful connection the next sleep is
reset to 1 and the doubling restarts from there; and every sleep stays in
[1, 60]. -/
theorem c7_backoff_policy (pre : List Bool) (n : Nat) :
    backoffSleeps 1 (List.replicate n false) =
      (List.range n).map (fun i => min (2 ^ i) 60)
    ∧ backoffSleeps 1 (pre ++ true :: List.replicate n false) =
        backoffSleeps 1 pre ++
          1 :: (List.range n).map (fun i => min (2 ^ (1 + i)) 60)
    ∧ ∀ d outcomes, 1 ≤ d → d ≤ 60 →
        ∀ s ∈ backoffSleeps d outcomes, 1 ≤ s ∧ s ≤ 60 := by
  have hstep : ∀ (d : Nat) (rest : List Bool),
      backoffSleeps d (true :: rest) = 1 :: backoffSleeps 2 rest :=
    fun d rest => rfl
  refine ⟨?_, ?_, fun d o h1 h60 => backoffSleeps_bounds o d h1 h60⟩
  · have h := backoffSleeps_replicate_false n 0
    simpa using h
  · rw [backoffSleeps_append, hstep]
    have h2 : backoffSleeps 2 (List.replicate n false) =
        (List.range n).map (fun i => min (2 ^ (1 + i)) 60) :=
      backoffSleeps_replicate_false n 1
    rw [h2]

/-- C7 witness: in the trace of one failure, a reconnection and seven more
failures, the sleep 60 occurs and obeys the bounds. -/
theorem c7_backoff_policy_witness : 1 ≤ 60 ∧ 60 ≤ 60 :=
  (c7_backoff_policy [] 0).2.2 1
    [false, true, false, false, false, false, false, false, false]
    (by decide) (by decide) 60 (by decide)

/-- C8 counterexample: on malformed metadata the handler skips the event
(logged `JSONDecodeError`), and on absent metadata the default empty object
is not tagged "sip", so in neither case is a call started or the
`on_call_received` callback invoked — there is no fail-open to a generated
id and "unknown" number. -/
theorem c8_counterexample :
    handle_participant_joined [] c8_mal_event 0 = ([], none)
    ∧ handle_participant_joined [] c8_abs_event 0 = ([], none) :=
  ⟨rfl, rfl⟩

/-- C8 (amended): for well-formed metadata tagged type "sip" the handler
resolves the call id (falling back to `"call_" ++ identity`) and the phone
number (falling back to "unknown"), records the call in the active-call
table and invokes `on_call_received` with `(call id, phone with "+"
stripped, phone)`; events with absent or malformed metadata are skipped
without error: no state change and no callback.  The handler is a total
function, so it never throws. -/
theorem c8_participant_joined_amended
    (activeCalls : List (String × ActiveCall)) (ev : JoinedEvent) (now : Int) :
    (∀ c f, ev.participant.metadata
        = some (ParticipantMeta.fields (some "sip") c f) →
      (handle_participant_joined activeCalls ev now).2
        = some (c.getD ("call_" ++ ev.participant.identity),
            stripPlus (f.getD "unknown"), f.getD "unknown")
      ∧ (handle_participant_joined activeCalls ev now).1.any
          (fun p => p.1 == c.getD ("call_" ++ ev.participant.identity))
          = true)
    ∧ ((ev.participant.metadata = none
        ∨ ev.participant.metadata = some ParticipantMeta.malformed) →
      handle_participant_joined activeCalls ev now = (activeCalls, none)) := by
  constructor
  · intro c f hmeta
    constructor
    · simp [handle_participant_joined, hmeta]
    · simp only [handle_participant_joined, hmeta]
      cases hA : activeCalls.any
          (fun p => p.1 == c.getD ("call_" ++ ev.participant.identity))
      · simp [hA, List.any_append]
      · simp only [beq_self_eq_true, if_true, hA]
        rw [any_fst_map]
        exact hA
  · intro h
    rcases h with h | h <;> simp [handle_participant_joined, h]

/-- C8 witness: a sip participant with neither `callId` nor `from` in its
metadata produces the generated id and the "unknown" number. -/
theorem c8_participant_joined_amended_witness :
    (handle_participant_joined [] c8w_event 5).2
        = some ("call_" ++ c8w_event.participant.identity,
            stripPlus "unknown", "unknown")
    ∧ (handle_participant_joined [] c8w_event 5).1.any
        (fun p => p.1 == "call_" ++ c8w_event.participant.identity) = true :=
  (c8_participant_joined_amended [] c8w_event 5).1 none none rfl

/-- C10: `resolve_help_request` never checks the current status: on an
escalation already terminal ("unresolved" or "resolved") it still succeeds,
overwrites the status to "resolved" and the answer, and appends one more
knowledge entry each time — two consecutive calls leave the knowledge store
two entries longer. -/
theorem c10_resolve_unguarded (st : AgentState) (r : HelpRequest)
    (a qid1 qid2 : String) (t1 t2 : Int)
    (hfind : st.help_requests.find?
      (fun x => x.request_id == r.request_id) = some r)
    (hstatus : r.status = "unresolved" ∨ r.status = "resolved")
    (hfresh1 : ∀ k ∈ st.knowledge, k.question_id ≠ qid1)
    (hfresh2 : ∀ k ∈ st.knowledge, k.question_id ≠ qid2)
    (hne : qid1 ≠ qid2) :
    (resolve_help_request st r.request_id a qid1 t1).map
        (fun p => (p.1.status, p.1.answer, p.2.knowledge.length))
      = some ("resolved", some a, st.knowledge.length + 1)
    ∧ ((resolve_help_request st r.request_id a qid1 t1).bind
        (fun p => resolve_help_request p.2 r.request_id a qid2 t2)).map
          (fun p => (p.1.status, p.1.answer, p.2.knowledge.length))
      = some ("resolved", some a, st.knowledge.length + 2) := by
  have hput1 : putByKey KnowledgeBase.question_id st.knowledge
      { question_id := qid1, question := r.question, answer := a,
        created_at := t1, source_request_id := some r.request_id,
        confidence := 1 } = st.knowledge ++
        [{ question_id := qid1, question := r.question, answer := a,
           created_at := t1, source_request_id := some r.request_id,
           confidence := 1 }] :=
    putByKey_fresh _ _ _ (fun k hk => hfresh1 k hk)
  have hfind2 : (putByKey HelpRequest.request_id st.help_requests
      { r with status := "resolved", answer := some a }).find?
        (fun y => y.request_id == r.request_id)
      = some { r with status := "resolved", answer := some a } :=
    find?_putByKey HelpRequest.request_id st.help_requests
      { r with status := "resolved", answer := some a } r hfind
  have hput2 : putByKey KnowledgeBase.question_id (st.knowledge ++
      [{ question_id := qid1, question := r.question, answer := a,
         created_at := t1, source_request_id := some r.request_id,
         confidence := 1 }])
      { question_id := qid2, question := r.question, answer := a,
        created_at := t2, source_request_id := some r.request_id,
        confidence := 1 } = (st.knowledge ++
        [{ question_id := qid1, question := r.question, answer := a,
           created_at := t1, source_request_id := some r.request_id,
           confidence := 1 }]) ++
        [{ question_id := qid2, question := r.question, answer := a,
           created_at := t2, source_request_id := some r.request_id,
           confidence := 1 }] := by
    refine putByKey_fresh _ _ _ (fun k hk => ?_)
    rcases List.mem_append.mp hk with hk | hk
    · exact hfresh2 k hk
    · simp at hk
      subst hk
      simpa using hne
  constructor
  · simp [resolve_help_request, hfind, hput1]
  · simp [resolve_help_request, hfind, hfind2, hput1, hput2]

/-- C10 witness: resolving the already-unresolved `c10_req` twice. -/
theorem c10_resolve_unguarded_witness :
    (resolve_help_request c10_state "r10" "A" "k101" 5000).map
        (fun p => (p.1.status, p.1.answer, p.2.knowledge.length))
      = some ("resolved", some "A", c10_state.knowledge.length + 1)
    ∧ ((resolve_help_request c10_state "r10" "A" "k101" 5000).bind
        (fun p => resolve_help_request p.2 "r10" "A" "k102" 6000)).map
          (fun p => (p.1.status, p.1.answer, p.2.knowledge.length))
      = some ("resolved", some "A", c10_state.knowledge.length + 2) :=
  c10_resolve_unguarded c10_state c10_req "A" "k101" "k102" 5000 6000 rfl
    (Or.inl rfl) (by simp [c10_state]) (by simp [c10_state]) (by decide)

end VoiceAgent
